import Mathlib

/-!
Verification of the textract combat / encounter / persistence core
(`textract.py`) against its natural-language specification.

The Python source is shallowly embedded: classes become structures, mutating
methods become pure functions returning the updated value, machine integers
become `Int`, Python floats used for probabilities become `ℚ` (the source only
ever combines decimal literals), and every call to the global random source
becomes an explicit parameter (`random.random()` draws become `ℚ` arguments,
`random.randint(a, b)` draws become the `randint` function applied to a raw
`Nat` draw, `random.choice` becomes `uniformChoice` applied to a raw draw).
Python `int(x)` on a non-negative value is integer division.  Fields of the
source that no modelled operation reads (item weights, monetary values,
location exits, containers, descriptions) are omitted.
-/

/-- `Weapon` from textract.py (fields read by the modelled operations). -/
structure Weapon where
  name : String
  damage : Int
  effectiveRangeType : String
deriving Repr, DecidableEq

/-- `Armor` from textract.py: used for both body armor and helmets (`slot`). -/
structure Armor where
  name : String
  defense : Int
  slot : String
deriving Repr, DecidableEq

/-- `Consumable` from textract.py. -/
structure Consumable where
  name : String
  effectType : String
  effectValue : Int
deriving Repr, DecidableEq

/-- Items as stored in inventories / loot lists: the `Item` class hierarchy
of textract.py as a tagged sum (`misc` is a bare `Item` instance). -/
inductive Item where
  | weapon (w : Weapon)
  | armor (a : Armor)
  | consumable (c : Consumable)
  | misc (name : String)
deriving Repr, DecidableEq

/-- The name attribute of an item (used by the persistence layer). -/
def itemName : Item → String
  | .weapon w => w.name
  | .armor a => a.name
  | .consumable c => c.name
  | .misc n => n

/-- Defense of an optional armor piece (0 when absent). -/
def optDefense : Option Armor → Int
  | some a => a.defense
  | none => 0

/-- `Player` from textract.py (stat and equipment fields). -/
structure Player where
  maxHealth : Int
  currentHealth : Int
  damage : Int
  defense : Int
  isAlive : Bool
  inventory : List Item
  equippedWeapon : Option Weapon
  equippedArmor : Option Armor
  equippedHelmet : Option Armor
  maxStamina : Int
  currentStamina : Int
  isBleeding : Bool
  roubles : Int
deriving Repr, DecidableEq

/-- `Enemy` from textract.py. -/
structure Enemy where
  name : String
  maxHealth : Int
  currentHealth : Int
  damage : Int
  defense : Int
  isAlive : Bool
  lootItems : List Item
  equippedWeapon : Option Weapon
  equippedArmor : Option Armor
  equippedHelmet : Option Armor
  baseHitChance : ℚ
deriving Repr, DecidableEq

/-- `Player.take_damage` from textract.py.  `bleedRoll25` is the outcome of
the `random.random() < 0.25` bleed roll.  Returns the updated player and the
effective damage dealt.  `int(x * 1.5)` on the non-negative `x` is `x * 3 / 2`
in integer division. -/
def Player.take_damage (p : Player) (amount : Int) (hitLocation : String)
    (bleedRoll25 : Bool) : Player × Int :=
  let defenseValue : Int :=
    if hitLocation = "head" ∧ p.equippedHelmet.isSome then optDefense p.equippedHelmet
    else if hitLocation = "body" ∧ p.equippedArmor.isSome then optDefense p.equippedArmor
    else 0
  let effectiveDamage := max 0 (amount - defenseValue)
  let effectiveDamage :=
    if hitLocation = "head" ∧ p.equippedHelmet = none then effectiveDamage * 3 / 2
    else effectiveDamage
  let newHealth := p.currentHealth - effectiveDamage
  let p' :=
    if newHealth ≤ 0 then { p with currentHealth := 0, isAlive := false }
    else { p with currentHealth := newHealth }
  let p' :=
    if effectiveDamage > 0 ∧ (bleedRoll25 ∨ (hitLocation = "head" ∧ p.equippedHelmet = none))
    then { p' with isBleeding := true }
    else p'
  (p', effectiveDamage)

/-- `Enemy.take_damage` from textract.py: base defense plus the struck
slot's armor, and the ×2 unhelmeted-head multiplier after subtraction. -/
def Enemy.take_damage (e : Enemy) (amount : Int) (hitLocation : String) : Enemy × Int :=
  let defenseValue : Int := e.defense +
    (if hitLocation = "head" ∧ e.equippedHelmet.isSome then optDefense e.equippedHelmet
     else if hitLocation = "body" ∧ e.equippedArmor.isSome then optDefense e.equippedArmor
     else 0)
  let effectiveDamage := max 0 (amount - defenseValue)
  let effectiveDamage :=
    if hitLocation = "head" ∧ e.equippedHelmet = none then effectiveDamage * 2
    else effectiveDamage
  let newHealth := e.currentHealth - effectiveDamage
  let e' :=
    if newHealth ≤ 0 then { e with currentHealth := 0, isAlive := false }
    else { e with currentHealth := newHealth }
  (e', effectiveDamage)

/-- `Character.heal` from textract.py. -/
def Player.heal (p : Player) (amount : Int) : Player :=
  { p with currentHealth := min p.maxHealth (p.currentHealth + amount) }

/-- `Player.restore_stamina` from textract.py. -/
def Player.restore_stamina (p : Player) (amount : Int) : Player :=
  { p with currentStamina := min p.maxStamina (p.currentStamina + amount) }

/-- `Player.use_consumable` from textract.py.  Returns the updated player and
the success flag.  Mirrors the source exactly: a `cure_bleeding` item used
while not bleeding returns `False` before the final `inventory.remove`;
every other reachable path removes the first matching inventory entry. -/
def Player.use_consumable (p : Player) (c : Consumable) : Player × Bool :=
  if Item.consumable c ∈ p.inventory then
    if c.effectType = "heal" then
      ({ p.heal c.effectValue with inventory := p.inventory.erase (Item.consumable c) }, true)
    else if c.effectType = "stamina_restore" then
      ({ p with currentStamina := min p.maxStamina (p.currentStamina + c.effectValue),
                inventory := p.inventory.erase (Item.consumable c) }, true)
    else if c.effectType = "cure_bleeding" then
      if p.isBleeding then
        ({ p with isBleeding := false,
                  inventory := p.inventory.erase (Item.consumable c) }, true)
      else (p, false)
    else ({ p with inventory := p.inventory.erase (Item.consumable c) }, true)
  else (p, false)

/-- The player-side range-compatibility modifier matrix of
`Game.combat_round` (keyed by location range class, then by the equipped
weapon's optimal range class).  Any unlisted class contributes 0, exactly as
the source's if/elif chain leaves `range_modifier` untouched. -/
def playerRangeModifier (locationRange weaponRange : String) : ℚ :=
  if locationRange = "very_short" then
    if weaponRange = "very_short" then 20/100
    else if weaponRange = "short" then 10/100
    else if weaponRange = "medium" then -(5/100)
    else if weaponRange = "long" then -(15/100)
    else 0
  else if locationRange = "short" then
    if weaponRange = "very_short" then -(10/100)
    else if weaponRange = "short" then 15/100
    else if weaponRange = "medium" then 5/100
    else if weaponRange = "long" then -(10/100)
    else 0
  else if locationRange = "medium" then
    if weaponRange = "very_short" then -(15/100)
    else if weaponRange = "short" then -(5/100)
    else if weaponRange = "medium" then 10/100
    else if weaponRange = "long" then 5/100
    else 0
  else if locationRange = "long" then
    if weaponRange = "very_short" then -(30/100)
    else if weaponRange = "short" then -(20/100)
    else if weaponRange = "medium" then -(10/100)
    else if weaponRange = "long" then 20/100
    else 0
  else 0

/-- The `max(0.1, min(0.95, ·))` clamp applied to every hit chance. -/
def clampChance (c : ℚ) : ℚ := max (10/100) (min (95/100) c)

/-- The player's final hit chance in `Game.combat_round`:
base 0.75 plus the range modifier, clamped. -/
def playerFinalHitChance (locationRange weaponRange : String) : ℚ :=
  clampChance (75/100 + playerRangeModifier locationRange weaponRange)

/-- The enemy-side range modifier of `Game.combat_round` (medium and any
unlisted class, including "close", contribute 0). -/
def enemyRangeModifier (locationRange : String) : ℚ :=
  if locationRange = "very_short" then 10/100
  else if locationRange = "short" then 5/100
  else if locationRange = "long" then -(10/100)
  else 0

/-- The enemy's final hit chance in `Game.combat_round`. -/
def enemyFinalHitChance (e : Enemy) (locationRange : String) : ℚ :=
  clampChance (e.baseHitChance + enemyRangeModifier locationRange)

/-- The player-attack damage application of `Game.combat_round`: raw damage
is `player.damage` plus the `randint(-5, 5)` roll, doubled on a headshot
before `Enemy.take_damage` subtracts defense. -/
def combatPlayerHit (p : Player) (dmgRoll : Int) (actualHitLocation : String)
    (e : Enemy) : Enemy × Int :=
  let playerDamage := p.damage + dmgRoll
  let dmg := if actualHitLocation = "head" then playerDamage * 2 else playerDamage
  e.take_damage dmg actualHitLocation

/-- The enemy-turn half of `Game.combat_round` as a function of the explicit
random draws: `dmgRoll` is the `randint(-3, 3)` draw, `hitRoll` the
`random.random()` hit draw (the source misses when the draw is strictly
greater than the chance), `aimTarget` the uniform head/body choice and
`headSubRoll` the independent 30% headshot sub-roll.  Stamina regenerates
by 5 only on the hit path, as in the source (the miss path returns first). -/
def enemyTurnResolve (e : Enemy) (locationRange : String) (p : Player)
    (dmgRoll : Int) (hitRoll : ℚ) (aimTarget : String) (headSubRoll : ℚ)
    (bleedRoll25 : Bool) : Player :=
  let enemyDamage := e.damage + dmgRoll
  let chance := enemyFinalHitChance e locationRange
  if hitRoll > chance then p
  else
    let actualLocation :=
      if aimTarget = "head" then (if headSubRoll < 30/100 then "head" else "body")
      else "body"
    let dmg := if actualLocation = "head" then enemyDamage * 2 else enemyDamage
    ((p.take_damage dmg actualLocation bleedRoll25).1).restore_stamina 5

/-- The failed-flee counter attack of `Game._attempt_flee`: the hit roll is
compared against the bare `base_hit_chance` (no range modifier, no clamp),
the hit location is `random.choice(["head", "body"])` used directly (a head
choice is always an actual headshot), and stamina regenerates by 5 on both
the hit and the miss path. -/
def fleeCounterAttack (e : Enemy) (p : Player) (dmgRoll : Int) (hitRoll : ℚ)
    (locationChoice : String) (bleedRoll25 : Bool) : Player :=
  let enemyDamage := e.damage + dmgRoll
  let p' :=
    if hitRoll < e.baseHitChance then
      let dmg := if locationChoice = "head" then enemyDamage * 2 else enemyDamage
      (p.take_damage dmg locationChoice bleedRoll25).1
    else p
  p'.restore_stamina 5

/-- The failed-flee counter attack as the specification describes it
("the same hit/location logic as a normal enemy turn but with no range
modifier"): written from the spec's words, for comparison with
`fleeCounterAttack`.  It keeps the enemy turn's 30% headshot sub-roll. -/
def fleeCounterAttackSpec (e : Enemy) (p : Player) (dmgRoll : Int) (hitRoll : ℚ)
    (aimTarget : String) (headSubRoll : ℚ) (bleedRoll25 : Bool) : Player :=
  let enemyDamage := e.damage + dmgRoll
  let p' :=
    if hitRoll < e.baseHitChance then
      let actualLocation :=
        if aimTarget = "head" then (if headSubRoll < 30/100 then "head" else "body")
        else "body"
      let dmg := if actualLocation = "head" then enemyDamage * 2 else enemyDamage
      (p.take_damage dmg actualLocation bleedRoll25).1
    else p
  p'.restore_stamina 5

/-- `Location` from textract.py (fields read by the modelled operations;
exits, containers and descriptions are omitted as unused here). -/
structure Location where
  name : String
  isExtractionPoint : Bool
  rangeType : String
  visited : Bool
  enemies : List Enemy
  items : List Item
deriving Repr, DecidableEq

/-- The flat persisted record written by `Game._save_hideout_state`
(`hideout_data.json`). -/
structure SaveData where
  playerRoubles : Int
  hideoutStorage : List String
  playerHealth : Int
  playerStamina : Int
  playerIsBleeding : Bool
  raidCount : Int
  playerInventory : List String
  equippedWeapon : Option String
  equippedArmor : Option String
  equippedHelmet : Option String
deriving Repr, DecidableEq

/-- The game-session state of the `Game` class (the fields touched by the
raid/hideout state machine).  `currentLocationIdx` indexes into `map`,
mirroring the source's by-reference current location. -/
structure GameState where
  player : Player
  raidTimer : Int
  inHideout : Bool
  gameOver : Bool
  gameWon : Bool
  raidCount : Int
  hideoutStorage : List Item
  currentLocationIdx : Nat
  map : List Location
  savedData : Option SaveData
deriving Repr, DecidableEq

/-- The location the player currently occupies. -/
def currentLocation (g : GameState) : Location :=
  g.map.getD g.currentLocationIdx
    { name := "", isExtractionPoint := false, rangeType := "medium",
      visited := false, enemies := [], items := [] }

/-- `Game._save_hideout_state` from textract.py: the record it writes.
With `saveEquippedItems = false` (raid start) the inventory is saved empty
and all three equipment slots are saved as absent. -/
def save_hideout_state (g : GameState) (saveEquippedItems : Bool) : SaveData :=
  { playerRoubles := g.player.roubles,
    hideoutStorage := g.hideoutStorage.map itemName,
    playerHealth := g.player.currentHealth,
    playerStamina := g.player.currentStamina,
    playerIsBleeding := g.player.isBleeding,
    raidCount := g.raidCount,
    playerInventory := if saveEquippedItems then g.player.inventory.map itemName else [],
    equippedWeapon := if saveEquippedItems then g.player.equippedWeapon.map Weapon.name else none,
    equippedArmor := if saveEquippedItems then g.player.equippedArmor.map Armor.name else none,
    equippedHelmet := if saveEquippedItems then g.player.equippedHelmet.map Armor.name else none }

/-- `Game.check_extraction` from textract.py.  Writing the save file is
modelled by setting `savedData`. -/
def check_extraction (g : GameState) : GameState :=
  if (currentLocation g).isExtractionPoint then
    if (currentLocation g).enemies.isEmpty then
      let p1 := { g.player with isBleeding := false, currentHealth := g.player.maxHealth }
      let g1 := { g with gameWon := true, inHideout := true,
                         raidCount := g.raidCount + 1, player := p1 }
      { g1 with savedData := some (save_hideout_state g1 true) }
    else g
  else g

/-- `Game._start_raid` from textract.py.  The `random.choice` over
`list(self.map.values())` is modelled by the drawn index `locIdx`; the
subsequent `_spawn_random_enemies()` call is the `spawn` argument (its
internal randomness is modelled separately by `spawnEnemyFromRolls`). -/
def start_raid (g : GameState) (locIdx : Nat) (spawn : GameState → GameState) : GameState :=
  let g1 := { g with savedData := some (save_hideout_state g false) }
  let p2 := { g1.player with currentHealth := g1.player.maxHealth, currentStamina := g1.player.maxStamina, isBleeding := false }
  let g2 := { g1 with inHideout := false, raidTimer := 100, player := p2 }
  let g3 := { g2 with currentLocationIdx := locIdx }
  let clearedMap := g3.map.map (fun loc => { loc with visited := false, enemies := [] })
  let g4 := { g3 with map := clearedMap }
  spawn g4

/-- The per-turn bleeding tick at the end of `Game._handle_raid_commands`:
`randint(2, 5)` damage routed through `Player.take_damage` at the body
location (so body armor defense applies to it). -/
def raidBleedTick (p : Player) (bleedingDamage : Int) (bleedRoll25 : Bool) : Player :=
  if p.isBleeding then (p.take_damage bleedingDamage "body" bleedRoll25).1 else p

/-- The raid-mode main command vocabulary of `Game._handle_raid_commands`. -/
def mainCommands : List String :=
  ["move", "look", "get", "drop", "equip", "use", "attack", "inventory",
   "stats", "search", "extract", "help", "quit", "examine", "rest", "flee"]

/-- `Game.command_aliases` from textract.py. -/
def commandAliases : List (String × String) :=
  [("n", "move north"), ("e", "move east"), ("s", "move south"), ("w", "move west"),
   ("ne", "move northeast"), ("nw", "move northwest"), ("se", "move southeast"),
   ("sw", "move southwest"), ("inv", "inventory"), ("stat", "stats"),
   ("ex", "examine"), ("h", "help"), ("q", "quit"), ("l", "look"),
   ("sr", "start_raid"), ("sh", "shop"), ("st", "storage")]

/-- Alias lookup (`original_command in self.command_aliases`). -/
def aliasLookup (s : String) : Option String :=
  (commandAliases.find? (fun kv => kv.1 = s)).map (·.2)

/-- Python's `str.startswith`, computed on the character lists. -/
def leadsWith : List Char → List Char → Bool
  | _, [] => true
  | [], _ :: _ => false
  | c :: cs, d :: ds => c = d && leadsWith cs ds

/-- Python's `str.startswith` on strings. -/
def strStartsWith (s t : String) : Bool := leadsWith s.data t.data

/-- Python's `split(maxsplit=1)`: first whitespace-delimited token and the
remainder (with the separating spaces dropped). -/
def splitFirstTok (s : String) : String × String :=
  let tok := s.data.takeWhile (fun c => c ≠ ' ')
  let rest := (s.data.drop tok.length).dropWhile (fun c => c = ' ')
  (String.mk tok, String.mk rest)

/-- Result of the alias/prefix command resolution at the top of
`Game._handle_raid_commands`. -/
inductive CommandResolution where
  | ambiguous
  | resolved (command : String)
deriving Repr, DecidableEq

/-- The alias/prefix resolution of `Game._handle_raid_commands`: aliases are
substituted whole; otherwise the first token is prefix-completed against the
main command list.  Exactly one match autocompletes, more than one match
reports ambiguity and returns, zero matches leave the command unchanged. -/
def resolveRaidCommand (original : String) : CommandResolution :=
  match aliasLookup original with
  | some aliased => .resolved aliased
  | none =>
    let parts := splitFirstTok original
    let matches' := mainCommands.filter (fun c => strStartsWith c parts.1)
    if matches'.length = 1 then .resolved (matches'.headD "" ++ " " ++ parts.2)
    else if matches'.length > 1 then .ambiguous
    else .resolved original

/-- The raid actions dispatched to a state-changing handler in
`Game._handle_raid_commands` (all set `valid_action_performed = True`;
`inventory`/`inv` and `quit` are handled separately below, and `flee`,
`help` and unrecognized commands only print). -/
def raidStateActions : List String :=
  ["move", "look", "get", "drop", "equip", "use", "attack", "stats",
   "search", "examine", "rest", "extract"]

/-- `Game._handle_raid_commands` from textract.py, parametric in `exec`, the
combined effect of the individual action handlers (`move_player`,
`get_item`, `check_extraction`, ...), applied to the resolved action and
argument.  An ambiguous command returns before anything else; a valid
non-quit action decrements the raid timer, ending the raid (game over, no
bleed tick) when it reaches 0; every other fall-through path — including an
unrecognized command — still applies the standing bleeding tick. -/
def handle_raid_commands (exec : String → String → GameState → GameState)
    (g : GameState) (original : String) (bleedingDamage : Int)
    (bleedRoll25 : Bool) : GameState :=
  match resolveRaidCommand original with
  | .ambiguous => g
  | .resolved command =>
    let parts := splitFirstTok command
    let action := parts.1
    let arg := parts.2
    let isExecAction := action ∈ raidStateActions ∨ action = "inventory" ∨ action = "inv"
    let g1 :=
      if isExecAction then exec action arg g
      else if action = "quit" then { g with gameOver := true }
      else g
    let validActionPerformed := isExecAction ∨ action = "quit"
    if validActionPerformed ∧ action ≠ "quit" then
      let g2 : GameState := { g1 with raidTimer := g1.raidTimer - 1 }
      if g2.raidTimer ≤ 0 then { g2 with gameOver := true }
      else { g2 with player := raidBleedTick g2.player bleedingDamage bleedRoll25 }
    else { g1 with player := raidBleedTick g1.player bleedingDamage bleedRoll25 }

/-- `random.randint(lo, hi)` (inclusive bounds) driven by a raw draw `r`. -/
def randint (lo hi : Int) (r : Nat) : Int := lo + (r % (hi - lo + 1).toNat)

/-- `random.choice` over a list, driven by a raw draw `r`. -/
def uniformChoice {α : Type} (l : List α) (d : α) (r : Nat) : α :=
  l.getD (r % l.length) d

/-- Weapon constants of `Game._initialize_game_state` (damage and optimal
range class as in the source). -/
def pistol : Weapon := { name := "Makarov PM", damage := 15, effectiveRangeType := "short" }

/-- `self.ak74n`. -/
def ak74n : Weapon := { name := "AK-74N", damage := 30, effectiveRangeType := "medium" }

/-- `self.shotgun`. -/
def shotgun : Weapon := { name := "MP-153", damage := 40, effectiveRangeType := "very_short" }

/-- `self.mosin`. -/
def mosin : Weapon := { name := "Mosin", damage := 50, effectiveRangeType := "long" }

/-- `self.mp5`. -/
def mp5 : Weapon := { name := "MP5", damage := 25, effectiveRangeType := "short" }

/-- `self.akm`. -/
def akm : Weapon := { name := "AKM", damage := 35, effectiveRangeType := "medium" }

/-- `self.m4a1`. -/
def m4a1 : Weapon := { name := "M4A1", damage := 32, effectiveRangeType := "medium" }

/-- `self.svd`. -/
def svd : Weapon := { name := "SVD", damage := 60, effectiveRangeType := "long" }

/-- `self.toz_106`. -/
def toz106 : Weapon := { name := "TOZ-106", damage := 35, effectiveRangeType := "very_short" }

/-- `self.vpo_209`. -/
def vpo209 : Weapon := { name := "VPO-209", damage := 28, effectiveRangeType := "medium" }

/-- `self.tt_pistol`. -/
def ttPistol : Weapon := { name := "TT Pistol", damage := 18, effectiveRangeType := "short" }

/-- `self.pm_silenced`. -/
def pmSilenced : Weapon := { name := "PM (Silenced)", damage := 16, effectiveRangeType := "short" }

/-- `self.paca_armor`. -/
def pacaArmor : Armor := { name := "PACA Body Armor", defense := 5, slot := "body" }

/-- `self.kirasa_armor`. -/
def kirasaArmor : Armor := { name := "Kirasa Armor", defense := 10, slot := "body" }

/-- `self.gen4_armor`. -/
def gen4Armor : Armor := { name := "Gen4 Armor", defense := 15, slot := "body" }

/-- `self.tarbank_armor`. -/
def tarbankArmor : Armor := { name := "Tarbank Armor", defense := 4, slot := "body" }

/-- `self.ssh68_helmet`. -/
def ssh68Helmet : Armor := { name := "SSh-68 Helmet", defense := 3, slot := "head" }

/-- `self.kolpak_helmet`. -/
def kolpakHelmet : Armor := { name := "Kolpak-1 Helmet", defense := 5, slot := "head" }

/-- `self.altyn_helmet`. -/
def altynHelmet : Armor := { name := "Altyn Helmet", defense := 12, slot := "head" }

/-- `self.un_helmet`. -/
def unHelmet : Armor := { name := "UN Helmet", defense := 2, slot := "head" }

/-- `self.beanie`. -/
def beanie : Armor := { name := "Beanie", defense := 0, slot := "head" }

/-- `self.scav_weapons`. -/
def scavWeapons : List Weapon :=
  [pistol, mp5, akm, ak74n, shotgun, mosin, toz106, vpo209, ttPistol, pmSilenced]

/-- `self.scav_armor_pieces` (the pool contains `None`). -/
def scavArmorPieces : List (Option Armor) := [some pacaArmor, some tarbankArmor, none]

/-- `self.scav_helmets` (the pool contains `None`). -/
def scavHelmets : List (Option Armor) := [some ssh68Helmet, some unHelmet, some beanie, none]

/-- `self.armored_scav_weapons`. -/
def armoredScavWeapons : List Weapon := [ak74n, akm, mp5, shotgun, mosin, svd, m4a1]

/-- `self.armored_scav_armor`. -/
def armoredScavArmor : List Armor := [kirasaArmor, gen4Armor]

/-- `self.armored_scav_helmets`. -/
def armoredScavHelmets : List Armor := [kolpakHelmet, altynHelmet, ssh68Helmet]

/-- The random draws consumed when `Game._spawn_random_enemies` creates one
enemy: the tier roll (`random.random()`), the raw draws behind the
`randint`/`choice` calls of the chosen tier branch, and the drawn
common-loot sample (`random.sample(self.scav_common_loot, ...)`, abstracted
as the resulting list). -/
structure EnemyRolls where
  tierRoll : ℚ
  nameRoll : Nat
  healthRoll : Nat
  damageRoll : Nat
  weaponRoll : Nat
  armorRoll : Nat
  helmetRoll : Nat
  lootSample : List Item
deriving Repr

/-- The per-enemy branch of `Game._spawn_random_enemies`: a tier roll
strictly below 0.15 builds the elite enemy ("USEC PMC"/"Elite Scav"), below
0.40 the Armored Scav, otherwise the regular Scav — each with the source's
`randint` stat ranges, fixed base hit chance, gear pools, and the equipped
weapon appended to the loot list.  `Enemy.__init__` sets current health to
max health. -/
def spawnEnemyFromRolls (rolls : EnemyRolls) : Enemy :=
  if rolls.tierRoll < 15/100 then
    let health := randint 150 250 rolls.healthRoll
    let weapon := uniformChoice (armoredScavWeapons ++ [svd, m4a1]) pistol rolls.weaponRoll
    { name := uniformChoice ["USEC PMC", "Elite Scav"] "" rolls.nameRoll,
      maxHealth := health, currentHealth := health,
      damage := randint 25 35 rolls.damageRoll, defense := 0, isAlive := true,
      lootItems := rolls.lootSample ++ [Item.weapon weapon],
      equippedWeapon := some weapon,
      equippedArmor := some (uniformChoice [gen4Armor, kirasaArmor] pacaArmor rolls.armorRoll),
      equippedHelmet := some (uniformChoice [altynHelmet, kolpakHelmet] beanie rolls.helmetRoll),
      baseHitChance := 60/100 }
  else if rolls.tierRoll < 40/100 then
    let health := randint 70 120 rolls.healthRoll
    let weapon := uniformChoice armoredScavWeapons pistol rolls.weaponRoll
    { name := "Armored Scav",
      maxHealth := health, currentHealth := health,
      damage := randint 18 25 rolls.damageRoll, defense := 0, isAlive := true,
      lootItems := rolls.lootSample ++ [Item.weapon weapon],
      equippedWeapon := some weapon,
      equippedArmor := some (uniformChoice armoredScavArmor pacaArmor rolls.armorRoll),
      equippedHelmet := some (uniformChoice armoredScavHelmets beanie rolls.helmetRoll),
      baseHitChance := 55/100 }
  else
    let health := randint 40 70 rolls.healthRoll
    let weapon := uniformChoice scavWeapons pistol rolls.weaponRoll
    { name := "Scav",
      maxHealth := health, currentHealth := health,
      damage := randint 10 18 rolls.damageRoll, defense := 0, isAlive := true,
      lootItems := rolls.lootSample ++ [Item.weapon weapon],
      equippedWeapon := some weapon,
      equippedArmor := uniformChoice scavArmorPieces none rolls.armorRoll,
      equippedHelmet := uniformChoice scavHelmets none rolls.helmetRoll,
      baseHitChance := 45/100 }

/-- The clamp is the identity on chances already inside `[0.10, 0.95]`. -/
theorem clampChance_eq {c : ℚ} (h1 : 10/100 ≤ c) (h2 : c ≤ 95/100) : clampChance c = c := by
  unfold clampChance
  rw [min_eq_right h2, max_eq_right h1]

/-- The clamp always lands inside `[0.10, 0.95]`. -/
theorem clampChance_bounds (c : ℚ) : 10/100 ≤ clampChance c ∧ clampChance c ≤ 95/100 := by
  unfold clampChance
  exact ⟨le_max_left _ _, max_le (by norm_num) (min_le_left _ _)⟩

/-- The player range modifier matrix only produces values in `[-0.30, 0.20]`,
whatever the (location, weapon) class strings are. -/
theorem playerRangeModifier_bounds (l w : String) :
    -(30/100) ≤ playerRangeModifier l w ∧ playerRangeModifier l w ≤ 20/100 := by
  unfold playerRangeModifier
  split_ifs <;> norm_num

/-- Because `0.75` plus any matrix entry already lies in `[0.45, 0.95]`, the
clamp never alters the player's final hit chance. -/
theorem playerFinalHitChance_unclamped (l w : String) :
    playerFinalHitChance l w = 75/100 + playerRangeModifier l w := by
  have h := playerRangeModifier_bounds l w
  unfold playerFinalHitChance
  exact clampChance_eq (by linarith [h.1]) (by linarith [h.2])

/-- The player's final hit chance is always within the clamp bounds. -/
theorem playerFinalHitChance_bounds (l w : String) :
    10/100 ≤ playerFinalHitChance l w ∧ playerFinalHitChance l w ≤ 95/100 := by
  unfold playerFinalHitChance
  exact clampChance_bounds _

/-- C3: for every location range class and weapon optimal-range class pair,
the player's resolved hit chance equals 0.75 plus the fixed matrix modifier
(stated for all class strings: the clamp is provably a no-op on
0.75 + modifier), the sixteen matrix entries are the claimed constants, the
final chance used for the hit roll always lies in [0.10, 0.95], and a medium
location with a medium-optimal weapon yields exactly 0.85. -/
theorem c3_player_hit_chance_matrix :
    (∀ l w : String, playerFinalHitChance l w = 75/100 + playerRangeModifier l w ∧
      10/100 ≤ playerFinalHitChance l w ∧ playerFinalHitChance l w ≤ 95/100) ∧
    playerRangeModifier "very_short" "very_short" = 20/100 ∧
    playerRangeModifier "very_short" "short" = 10/100 ∧
    playerRangeModifier "very_short" "medium" = -(5/100) ∧
    playerRangeModifier "very_short" "long" = -(15/100) ∧
    playerRangeModifier "short" "very_short" = -(10/100) ∧
    playerRangeModifier "short" "short" = 15/100 ∧
    playerRangeModifier "short" "medium" = 5/100 ∧
    playerRangeModifier "short" "long" = -(10/100) ∧
    playerRangeModifier "medium" "very_short" = -(15/100) ∧
    playerRangeModifier "medium" "short" = -(5/100) ∧
    playerRangeModifier "medium" "medium" = 10/100 ∧
    playerRangeModifier "medium" "long" = 5/100 ∧
    playerRangeModifier "long" "very_short" = -(30/100) ∧
    playerRangeModifier "long" "short" = -(20/100) ∧
    playerRangeModifier "long" "medium" = -(10/100) ∧
    playerRangeModifier "long" "long" = 20/100 ∧
    playerFinalHitChance "medium" "medium" = 85/100 := by
  refine ⟨fun l w => ⟨playerFinalHitChance_unclamped l w,
    (playerFinalHitChance_bounds l w).1, (playerFinalHitChance_bounds l w).2⟩,
    rfl, rfl, rfl, rfl, rfl, rfl, rfl, rfl, rfl, rfl, rfl, rfl, rfl, rfl, rfl, rfl, ?_⟩
  rw [playerFinalHitChance_unclamped,
    show playerRangeModifier "medium" "medium" = 10/100 from rfl]
  norm_num

/-- C5 counterexample: in `Game.combat_round` a location whose range class
is "close" matches no branch of either modifier chain, so both modifiers are
0 — not the very_short values (+0.20 for a very_short-optimal weapon on the
player side, +0.10 on the enemy side) the claim asserts. -/
theorem c5_close_counterexample :
    playerRangeModifier "close" "very_short" = 0 ∧ ((0:ℚ) = 20/100 → False) ∧
    enemyRangeModifier "close" = 0 ∧ ((0:ℚ) = 10/100 → False) := by
  refine ⟨rfl, by norm_num, rfl, by norm_num⟩

/-- C5 amended: in a "close"-range location the combat modifiers are neutral
(0 for every weapon class on the player side, so the player's final chance
is the bare 0.75 base, and 0 on the enemy side, so the enemy's final chance
is just its clamped base hit probability).  "close" behaves like "medium",
not like "very_short". -/
theorem c5_close_range_neutral :
    ∀ (w : String) (e : Enemy),
      playerRangeModifier "close" w = 0 ∧
      playerFinalHitChance "close" w = 75/100 ∧
      enemyRangeModifier "close" = 0 ∧
      enemyFinalHitChance e "close" = clampChance e.baseHitChance := by
  intro w e
  refine ⟨rfl, ?_, rfl, ?_⟩
  · rw [playerFinalHitChance_unclamped, show playerRangeModifier "close" w = 0 from rfl]
    norm_num
  · unfold enemyFinalHitChance
    rw [show enemyRangeModifier "close" = 0 from rfl, add_zero]

/-- C4: headshots double raw damage before the defense subtraction on both
sides; an enemy struck on an unhelmeted head takes ×2 after defense
subtraction (×4 total versus a defense-0, unhelmeted head), a player struck
on an unhelmeted head takes ×1.5 floored after defense subtraction, and
effective damage is never negative.  `2 * raw` is the post-double damage the
combat round passes to `take_damage` on a headshot. -/
theorem c4_headshot_damage_multipliers :
    ∀ (e : Enemy) (p : Player) (raw dmgRoll : Int) (b : Bool) (hA : Armor),
      (e.equippedHelmet = none →
        (e.take_damage (2 * raw) "head").2 = 2 * max 0 (2 * raw - e.defense)) ∧
      (e.equippedHelmet = some hA →
        (e.take_damage (2 * raw) "head").2 = max 0 (2 * raw - (e.defense + hA.defense))) ∧
      (p.equippedHelmet = none →
        (p.take_damage (2 * raw) "head" b).2 = max 0 (2 * raw) * 3 / 2) ∧
      (p.equippedHelmet = some hA →
        (p.take_damage (2 * raw) "head" b).2 = max 0 (2 * raw - hA.defense)) ∧
      (∀ (amt : Int) (loc : String),
        0 ≤ (e.take_damage amt loc).2 ∧ 0 ≤ (p.take_damage amt loc b).2) ∧
      (e.equippedHelmet = none → e.defense = 0 → 0 ≤ p.damage + dmgRoll →
        (combatPlayerHit p dmgRoll "head" e).2 = 4 * (p.damage + dmgRoll)) := by
  intro e p raw dmgRoll b hA
  refine ⟨?_, ?_, ?_, ?_, ?_, ?_⟩
  · intro hh
    simp [Enemy.take_damage, hh]
    ring
  · intro hh
    simp [Enemy.take_damage, hh, optDefense]
  · intro hh
    simp [Player.take_damage, hh]
  · intro hh
    simp [Player.take_damage, hh, optDefense]
  · intro amt loc
    constructor
    · unfold Enemy.take_damage
      split_ifs <;> simp <;> positivity
    · unfold Player.take_damage
      split_ifs <;> simp <;> positivity
  · intro hh hd hnn
    simp [combatPlayerHit, Enemy.take_damage, hh, hd]
    rw [max_eq_right (by linarith)]
    ring

/-- A helmetless, armorless regular enemy, used to instantiate theorems. -/
def bareEnemy : Enemy :=
  { name := "Scav", maxHealth := 50, currentHealth := 50, damage := 12,
    defense := 0, isAlive := true, lootItems := [], equippedWeapon := none,
    equippedArmor := none, equippedHelmet := none, baseHitChance := 45/100 }

/-- A helmetless, armorless player with an AKM's damage, used to
instantiate theorems. -/
def barePlayer : Player :=
  { maxHealth := 100, currentHealth := 100, damage := 35, defense := 0,
    isAlive := true, inventory := [], equippedWeapon := none,
    equippedArmor := none, equippedHelmet := none, maxStamina := 100,
    currentStamina := 100, isBleeding := false, roubles := 0 }

/-- Witness for C4 at a concrete enemy, player and damage roll. -/
theorem c4_headshot_damage_multipliers_witness :
    (bareEnemy.take_damage (2 * 10) "head").2 = 2 * max 0 (2 * 10 - bareEnemy.defense) ∧
    (barePlayer.take_damage (2 * 10) "head" false).2 = max 0 (2 * 10) * 3 / 2 ∧
    0 ≤ (bareEnemy.take_damage 7 "body").2 ∧
    (combatPlayerHit barePlayer 0 "head" bareEnemy).2 = 4 * (barePlayer.damage + 0) :=
  ⟨(c4_headshot_damage_multipliers bareEnemy barePlayer 10 0 false beanie).1 rfl,
   (c4_headshot_damage_multipliers bareEnemy barePlayer 10 0 false beanie).2.2.1 rfl,
   ((c4_headshot_damage_multipliers bareEnemy barePlayer 10 0 false beanie).2.2.2.2.1 7 "body").1,
   (c4_headshot_damage_multipliers bareEnemy barePlayer 10 0 false beanie).2.2.2.2.2 rfl rfl
     (by norm_num [barePlayer])⟩

/-- `self.bandage` from `Game._initialize_game_state`. -/
def bandage : Consumable := { name := "Bandage", effectType := "cure_bleeding", effectValue := 0 }

/-- `self.medkit` from `Game._initialize_game_state`. -/
def medkit : Consumable := { name := "AI-2 Medkit", effectType := "heal", effectValue := 50 }

/-- C10: using a cure_bleeding consumable while not bleeding fails
atomically (the player — inventory, health, stamina and bleeding flag
included — is returned unchanged and the result flag is false), while a
heal or stamina_restore consumable present in the inventory is always
removed from the inventory by a successful use. -/
theorem c10_use_consumable_atomicity :
    ∀ (p : Player) (c : Consumable),
      (c.effectType = "cure_bleeding" → p.isBleeding = false →
        (p.use_consumable c).1 = p ∧ (p.use_consumable c).2 = false) ∧
      ((c.effectType = "heal" ∨ c.effectType = "stamina_restore") →
        Item.consumable c ∈ p.inventory →
        (p.use_consumable c).1.inventory = p.inventory.erase (Item.consumable c) ∧
        (p.use_consumable c).2 = true) := by
  intro p c
  constructor
  · intro hc hb
    by_cases hmem : Item.consumable c ∈ p.inventory
    · simp [Player.use_consumable, hc, hb, hmem]
    · simp [Player.use_consumable, hmem]
  · intro hc hmem
    rcases hc with hc | hc <;> simp [Player.use_consumable, hc, hmem, Player.heal]

/-- A player carrying a bandage and a medkit, not bleeding. -/
def stockedPlayer : Player :=
  { barePlayer with inventory := [Item.consumable bandage, Item.consumable medkit] }

/-- Witness for C10 at a concrete player and both consumable kinds. -/
theorem c10_use_consumable_atomicity_witness :
    ((stockedPlayer.use_consumable bandage).1 = stockedPlayer ∧
      (stockedPlayer.use_consumable bandage).2 = false) ∧
    ((stockedPlayer.use_consumable medkit).1.inventory =
        stockedPlayer.inventory.erase (Item.consumable medkit) ∧
      (stockedPlayer.use_consumable medkit).2 = true) :=
  ⟨(c10_use_consumable_atomicity stockedPlayer bandage).1 rfl rfl,
   (c10_use_consumable_atomicity stockedPlayer medkit).2 (Or.inl rfl)
     (by simp [stockedPlayer])⟩

/-- A bleeding player wearing Kirasa body armor (defense 10), at 50 health. -/
def armoredBleedingPlayer : Player :=
  { barePlayer with isBleeding := true, equippedArmor := some kirasaArmor, currentHealth := 50 }

/-- C6 counterexample: the per-action bleeding tick is routed through
`Player.take_damage` at the body location, so body armor defense applies to
it.  A bleeding player in Kirasa armor (defense 10) hit by the maximal tick
roll of 5 loses no health at all — the claim's "direct health loss ignoring
all defense" would leave health 45, but the code leaves 50. -/
theorem c6_bleeding_tick_counterexample :
    armoredBleedingPlayer.isBleeding = true ∧
    armoredBleedingPlayer.currentHealth = 50 ∧
    (raidBleedTick armoredBleedingPlayer 5 false).currentHealth = 50 ∧
    ((raidBleedTick armoredBleedingPlayer 5 false).currentHealth = 45 → False) := by
  refine ⟨rfl, rfl, rfl, ?_⟩
  intro h
  simp [raidBleedTick, Player.take_damage, armoredBleedingPlayer, barePlayer,
    kirasaArmor, optDefense] at h

/-- C6 amended: while bleeding, each top-level raid action applies exactly
one bleeding tick of a uniform 2–5 roll, but the tick goes through the
normal body-damage path: with no body armor it is a direct health loss
(and can reach 0 health, killing the player and ending the raid), while
equipped body armor subtracts its defense from the tick (possibly to 0). -/
theorem c6_bleeding_tick_body_path :
    ∀ (p : Player) (d : Int) (b : Bool), p.isBleeding = true → 2 ≤ d → d ≤ 5 →
      (p.equippedArmor = none →
        (raidBleedTick p d b).currentHealth = max 0 (p.currentHealth - d) ∧
        (p.currentHealth ≤ d → (raidBleedTick p d b).isAlive = false)) ∧
      (∀ a : Armor, p.equippedArmor = some a →
        (raidBleedTick p d b).currentHealth =
          max 0 (p.currentHealth - max 0 (d - a.defense))) := by
  intro p d b hb h2 h5
  constructor
  · intro ha
    constructor
    · simp only [raidBleedTick, Player.take_damage, hb, ha, if_true,
        apply_ite Player.currentHealth]
      simp
      split_ifs <;> omega
    · intro hle
      simp only [raidBleedTick, Player.take_damage, hb, ha, if_true,
        apply_ite Player.isAlive]
      simp
      intros
      omega
  · intro a ha
    simp only [raidBleedTick, Player.take_damage, hb, ha, if_true,
      apply_ite Player.currentHealth]
    simp [optDefense]
    split_ifs <;> omega

/-- Witness for C6 (amended) at a concrete unarmored bleeding player. -/
theorem c6_bleeding_tick_body_path_witness :
    (raidBleedTick { barePlayer with isBleeding := true } 3 false).currentHealth =
      max 0 (({ barePlayer with isBleeding := true } : Player).currentHealth - 3) :=
  ((c6_bleeding_tick_body_path { barePlayer with isBleeding := true } 3 false rfl
    (by norm_num) (by norm_num)).1 rfl).1

/-- C7 counterexample: the failed-flee counter attack does not use the
normal enemy turn's hit-location logic.  `random.choice(["head","body"])`
is used directly, so a head choice always lands as an actual headshot; the
spec-side model (`fleeCounterAttackSpec`, with the normal turn's 30%
headshot sub-roll) downgrades the same head aim to a body hit at sub-roll
0.5.  Against a bare enemy and bare player (damage 12 before the doubled
and ×1.5-multiplied headshot path) the code leaves the player at 64 health
where the claimed behaviour leaves 88. -/
theorem c7_flee_counter_counterexample :
    (fleeCounterAttack bareEnemy barePlayer 0 0 "head" false).currentHealth = 64 ∧
    (fleeCounterAttackSpec bareEnemy barePlayer 0 0 "head" (50/100) false).currentHealth = 88 ∧
    fleeCounterAttack bareEnemy barePlayer 0 0 "head" false ≠
      fleeCounterAttackSpec bareEnemy barePlayer 0 0 "head" (50/100) false := by
  have h1 : (fleeCounterAttack bareEnemy barePlayer 0 0 "head" false).currentHealth = 64 := by
    simp [fleeCounterAttack, Player.take_damage, Player.restore_stamina,
      bareEnemy, barePlayer, show (0:ℚ) < 45/100 by norm_num]
  have h2 : (fleeCounterAttackSpec bareEnemy barePlayer 0 0 "head" (50/100)
      false).currentHealth = 88 := by
    simp [fleeCounterAttackSpec, Player.take_damage, Player.restore_stamina,
      bareEnemy, barePlayer, show (0:ℚ) < 45/100 by norm_num,
      show ¬((50:ℚ)/100 < 30/100) by norm_num]
  refine ⟨h1, h2, ?_⟩
  intro h
  have hc := congrArg Player.currentHealth h
  rw [h1, h2] at hc
  norm_num at hc

/-- C7 amended: on a failed flee the enemy's single bonus attack rolls
against the bare, unmodified and unclamped base hit probability (no range
modifier), and on a hit resolves damage exactly as a normal enemy turn
would at a modifier-neutral location whose aim-and-sub-roll resolution
lands on the chosen location — i.e. a head choice is always an actual
headshot (there is no 30% downgrade sub-roll in the counter attack). -/
theorem c7_flee_counter_no_downgrade :
    ∀ (e : Enemy) (p : Player) (dmgRoll : Int) (hitRoll : ℚ) (c : String) (b : Bool),
      10/100 ≤ e.baseHitChance → e.baseHitChance ≤ 95/100 →
      hitRoll < e.baseHitChance → (c = "head" ∨ c = "body") →
      fleeCounterAttack e p dmgRoll hitRoll c b =
        enemyTurnResolve e "medium" p dmgRoll hitRoll c (if c = "head" then 0 else 1) b := by
  intro e p dmgRoll hitRoll c b hlo hhi hhit hc
  have hch : enemyFinalHitChance e "medium" = e.baseHitChance := by
    unfold enemyFinalHitChance
    rw [show enemyRangeModifier "medium" = 0 from rfl, add_zero]
    exact clampChance_eq hlo hhi
  rcases hc with hc | hc <;> subst hc <;>
    simp only [fleeCounterAttack, enemyTurnResolve] <;> rw [hch] <;>
    simp [hhit, lt_asymm hhit, show (0:ℚ) < 30/100 by norm_num]

/-- Witness for C7 (amended) at a concrete enemy, player and draws. -/
theorem c7_flee_counter_no_downgrade_witness :
    fleeCounterAttack bareEnemy barePlayer 2 0 "head" false =
      enemyTurnResolve bareEnemy "medium" barePlayer 2 0 "head"
        (if "head" = "head" then 0 else 1) false :=
  c7_flee_counter_no_downgrade bareEnemy barePlayer 2 0 "head" false
    (by norm_num [bareEnemy]) (by norm_num [bareEnemy]) (by norm_num [bareEnemy])
    (Or.inl rfl)

/-- C1: the extract action succeeds iff the current location has the
extraction flag and holds no enemies.  On success the engine increments the
lifetime raid counter by exactly 1, clears bleeding, restores health to
max, returns to the hideout, and commits the full state — equipped items
and inventory included, with the just-updated health/bleeding values — to
durable storage; on a non-extraction location or with any enemy present the
state (committed record included) is completely unchanged. -/
theorem c1_extraction_commit :
    ∀ g : GameState,
      ((currentLocation g).isExtractionPoint = false → check_extraction g = g) ∧
      ((currentLocation g).isExtractionPoint = true →
        (currentLocation g).enemies ≠ [] → check_extraction g = g) ∧
      ((currentLocation g).isExtractionPoint = true →
        (currentLocation g).enemies = [] →
        (check_extraction g).raidCount = g.raidCount + 1 ∧
        (check_extraction g).player.isBleeding = false ∧
        (check_extraction g).player.currentHealth = g.player.maxHealth ∧
        (check_extraction g).player.inventory = g.player.inventory ∧
        (check_extraction g).inHideout = true ∧
        (check_extraction g).gameWon = true ∧
        (check_extraction g).raidTimer = g.raidTimer ∧
        (check_extraction g).savedData = some
          { playerRoubles := g.player.roubles,
            hideoutStorage := g.hideoutStorage.map itemName,
            playerHealth := g.player.maxHealth,
            playerStamina := g.player.currentStamina,
            playerIsBleeding := false,
            raidCount := g.raidCount + 1,
            playerInventory := g.player.inventory.map itemName,
            equippedWeapon := g.player.equippedWeapon.map Weapon.name,
            equippedArmor := g.player.equippedArmor.map Armor.name,
            equippedHelmet := g.player.equippedHelmet.map Armor.name }) := by
  intro g
  refine ⟨?_, ?_, ?_⟩
  · intro h
    simp [check_extraction, h]
  · intro h hne
    simp [check_extraction, h, List.isEmpty_iff, hne]
  · intro h hemp
    simp [check_extraction, h, hemp, save_hideout_state]

/-- An enemy-free extraction-flagged location. -/
def bunkerExit : Location :=
  { name := "ZB-013 Bunker", isExtractionPoint := true, rangeType := "close",
    visited := true, enemies := [], items := [] }

/-- A mid-raid game state standing at the bunker extraction point. -/
def raidEndState : GameState :=
  { player := barePlayer, raidTimer := 42, inHideout := false, gameOver := false,
    gameWon := false, raidCount := 3, hideoutStorage := [],
    currentLocationIdx := 0, map := [bunkerExit], savedData := none }

/-- Witness for C1 at a concrete state standing on an extraction point. -/
theorem c1_extraction_commit_witness :
    (currentLocation raidEndState).isExtractionPoint = true ∧
    (currentLocation raidEndState).enemies = [] ∧
    (check_extraction raidEndState).raidCount = raidEndState.raidCount + 1 ∧
    (check_extraction raidEndState).inHideout = true :=
  ⟨rfl, rfl, ((c1_extraction_commit raidEndState).2.2 rfl rfl).1,
    ((c1_extraction_commit raidEndState).2.2 rfl rfl).2.2.2.2.1⟩

/-- C2: `start_raid` first persists a checkpoint that keeps roubles,
storage and the stat fields (at their pre-reset values) but has an empty
inventory and no equipped weapon/armor/helmet; then the countdown is reset
to 100, health and stamina to their maxima, bleeding is cleared, the
starting location is the drawn index into the world graph, every location's
visited flag and enemy list are cleared, and the encounter generator runs
exactly once on that fully reset state (first conjunct). -/
theorem c2_start_raid_checkpoint :
    ∀ (g : GameState) (i : Nat) (spawn : GameState → GameState),
      start_raid g i spawn = spawn (start_raid g i id) ∧
      (start_raid g i id).savedData = some
        { playerRoubles := g.player.roubles,
          hideoutStorage := g.hideoutStorage.map itemName,
          playerHealth := g.player.currentHealth,
          playerStamina := g.player.currentStamina,
          playerIsBleeding := g.player.isBleeding,
          raidCount := g.raidCount,
          playerInventory := [],
          equippedWeapon := none,
          equippedArmor := none,
          equippedHelmet := none } ∧
      (start_raid g i id).raidTimer = 100 ∧
      (start_raid g i id).inHideout = false ∧
      (start_raid g i id).player.currentHealth = g.player.maxHealth ∧
      (start_raid g i id).player.currentStamina = g.player.maxStamina ∧
      (start_raid g i id).player.isBleeding = false ∧
      (start_raid g i id).player.inventory = g.player.inventory ∧
      (start_raid g i id).currentLocationIdx = i ∧
      (start_raid g i id).map =
        g.map.map (fun loc => { loc with visited := false, enemies := [] }) := by
  intro g i spawn
  refine ⟨rfl, ?_, rfl, rfl, rfl, rfl, rfl, rfl, rfl, rfl⟩
  simp [start_raid, save_hideout_state]

/-- Every character list is a `leadsWith`-match of itself. -/
theorem leadsWith_self : ∀ l : List Char, leadsWith l l = true := by
  intro l
  induction l with
  | nil => rfl
  | cons c cs ih => simp [leadsWith, ih]

/-- Every string starts with itself. -/
theorem strStartsWith_self (s : String) : strStartsWith s s = true :=
  leadsWith_self s.data

/-- A bleeding, unarmored player mid-raid (for command-handling states). -/
def bleedingRaidState : GameState :=
  { player := { barePlayer with isBleeding := true }, raidTimer := 10,
    inHideout := false, gameOver := false, gameWon := false, raidCount := 0,
    hideoutStorage := [], currentLocationIdx := 0, map := [bunkerExit],
    savedData := none }

/-- C9 counterexample: an unrecognized raid command ("frobnicate" is no
alias and prefix-matches no main command) leaves the action counter alone
but does NOT leave the game state unchanged: the standing bleeding tick at
the end of `Game._handle_raid_commands` still runs, so a bleeding player
loses health (here 100 → 97 on a tick roll of 3). -/
theorem c9_invalid_command_counterexample :
    (handle_raid_commands (fun _ _ s => s) bleedingRaidState "frobnicate" 3
        false).player.currentHealth = 97 ∧
    bleedingRaidState.player.currentHealth = 100 ∧
    (handle_raid_commands (fun _ _ s => s) bleedingRaidState "frobnicate" 3
        false).raidTimer = bleedingRaidState.raidTimer ∧
    handle_raid_commands (fun _ _ s => s) bleedingRaidState "frobnicate" 3 false ≠
      bleedingRaidState := by
  refine ⟨by decide, by decide, by decide, by decide⟩

/-- C9 amended: an ambiguous raid command (no alias, more than one main
command matching the first token) returns before anything else, leaving the
state exactly unchanged; an unrecognized command (no alias, no match)
changes nothing directly and never decrements the raid action counter, but
the standing per-action bleeding tick still runs afterwards — so the state
is exactly unchanged only when the player is not bleeding. -/
theorem c9_invalid_commands_no_decrement :
    ∀ (exec : String → String → GameState → GameState) (g : GameState)
      (cmd : String) (bd : Int) (br : Bool),
      (aliasLookup cmd = none →
        1 < (mainCommands.filter (fun c => strStartsWith c (splitFirstTok cmd).1)).length →
        handle_raid_commands exec g cmd bd br = g) ∧
      (aliasLookup cmd = none →
        mainCommands.filter (fun c => strStartsWith c (splitFirstTok cmd).1) = [] →
        handle_raid_commands exec g cmd bd br =
          { g with player := raidBleedTick g.player bd br } ∧
        (handle_raid_commands exec g cmd bd br).raidTimer = g.raidTimer ∧
        (g.player.isBleeding = false → handle_raid_commands exec g cmd bd br = g)) := by
  intro exec g cmd bd br
  constructor
  · intro ha hgt
    unfold handle_raid_commands resolveRaidCommand
    rw [ha]
    simp only []
    have hne1 : (mainCommands.filter
        (fun c => strStartsWith c (splitFirstTok cmd).1)).length ≠ 1 := by omega
    rw [if_neg hne1, if_pos hgt]
  · intro ha hnil
    have hact : ∀ s ∈ mainCommands, ¬ (strStartsWith s (splitFirstTok cmd).1 = true) := by
      intro s hs hstart
      have hmem : s ∈ mainCommands.filter
          (fun c => strStartsWith c (splitFirstTok cmd).1) :=
        List.mem_filter.mpr ⟨hs, hstart⟩
      rw [hnil] at hmem
      exact (List.not_mem_nil s) hmem
    have key : ∀ s ∈ mainCommands, (splitFirstTok cmd).1 ≠ s := by
      intro s hs heq
      exact hact s hs (by rw [heq]; exact strStartsWith_self s)
    have hsub : ∀ x ∈ raidStateActions, x ∈ mainCommands := by
      intro x hx
      fin_cases hx <;> decide
    have h1 : (splitFirstTok cmd).1 ∉ raidStateActions :=
      fun hm => key (splitFirstTok cmd).1 (hsub _ hm) rfl
    have h2 : (splitFirstTok cmd).1 ≠ "inventory" := key "inventory" (by decide)
    have h3 : (splitFirstTok cmd).1 ≠ "inv" :=
      fun h => hact "inventory" (by decide) (by rw [h]; decide)
    have h4 : (splitFirstTok cmd).1 ≠ "quit" := key "quit" (by decide)
    have hresolved : resolveRaidCommand cmd = .resolved cmd := by
      unfold resolveRaidCommand
      rw [ha]
      simp only []
      rw [hnil]
      simp
    refine ⟨?_, ?_, ?_⟩
    · unfold handle_raid_commands
      rw [hresolved]
      simp only []
      simp [h1, h2, h3, h4]
    · unfold handle_raid_commands
      rw [hresolved]
      simp only []
      simp [h1, h2, h3, h4, raidBleedTick]
    · intro hnb
      unfold handle_raid_commands
      rw [hresolved]
      simp only []
      simp [h1, h2, h3, h4, raidBleedTick, hnb]

/-- Witness for C9 (amended): "s foo" is ambiguous (search/stats), and
"frobnicate" is unrecognized, both at a concrete bleeding state. -/
theorem c9_invalid_commands_no_decrement_witness :
    handle_raid_commands (fun _ _ s => s) bleedingRaidState "s foo" 3 false =
      bleedingRaidState ∧
    handle_raid_commands (fun _ _ s => s) bleedingRaidState "frobnicate" 3 false =
      { bleedingRaidState with
        player := raidBleedTick bleedingRaidState.player 3 false } :=
  ⟨(c9_invalid_commands_no_decrement (fun _ _ s => s) bleedingRaidState "s foo" 3
      false).1 (by decide) (by decide),
   ((c9_invalid_commands_no_decrement (fun _ _ s => s) bleedingRaidState
      "frobnicate" 3 false).2 (by decide) (by decide)).1⟩

/-- `randint lo hi` always lands in `[lo, hi]` (inclusive), whatever the
raw draw. -/
theorem randint_bounds (lo hi : Int) (r : Nat) (h : lo ≤ hi) :
    lo ≤ randint lo hi r ∧ randint lo hi r ≤ hi := by
  unfold randint
  have hpos : 0 < (hi - lo + 1).toNat := by omega
  have hlt : r % (hi - lo + 1).toNat < (hi - lo + 1).toNat := Nat.mod_lt _ hpos
  omega

/-- `uniformChoice` over a nonempty list always picks an element of it. -/
theorem uniformChoice_mem {α : Type} (l : List α) (d : α) (r : Nat) (h : l ≠ []) :
    uniformChoice l d r ∈ l := by
  unfold uniformChoice
  have hlen : 0 < l.length := List.length_pos.mpr h
  have hlt : r % l.length < l.length := Nat.mod_lt _ hlen
  rw [List.getD_eq_getElem l d hlt]
  exact List.getElem_mem hlt

/-- An elite-tier draw record: tier roll 0.10, damage raw draw 20. -/
def eliteRolls : EnemyRolls :=
  { tierRoll := 10/100, nameRoll := 0, healthRoll := 0, damageRoll := 20,
    weaponRoll := 0, armorRoll := 0, helmetRoll := 0, lootSample := [] }

/-- C8 counterexample: the elite branch draws its damage with
`randint(25, 35)` and sets a constant base hit chance of 0.60 — not the
claimed uniform 25–45 damage and 0.60–0.85 hit-chance ranges.  At raw
damage draw 20 (tier roll 0.10 < 0.15, so elite), the code produces damage
34, while a uniform draw over 25–45 at the very same raw draw yields 45 —
a value the code's elite branch can never produce (see the amended
theorem's `damage ≤ 35` bound). -/
theorem c8_elite_counterexample :
    eliteRolls.tierRoll < 15/100 ∧
    (spawnEnemyFromRolls eliteRolls).damage = 34 ∧
    randint 25 45 20 = 45 ∧
    ((spawnEnemyFromRolls eliteRolls).damage = 45 → False) ∧
    (spawnEnemyFromRolls eliteRolls).baseHitChance = 60/100 := by
  have ht : (eliteRolls.tierRoll : ℚ) < 15/100 := by norm_num [eliteRolls]
  have hd : (spawnEnemyFromRolls eliteRolls).damage = 34 := by
    simp only [spawnEnemyFromRolls, if_pos ht]
    norm_num [eliteRolls, randint]
  refine ⟨ht, hd, by norm_num [randint], ?_, ?_⟩
  · intro h
    rw [hd] at h
    norm_num at h
  · simp only [spawnEnemyFromRolls, if_pos ht]

/-- C8 amended: a tier roll strictly below 0.15 always produces the elite
tier ("USEC PMC"/"Elite Scav"): health uniform in 150–250 (current = max),
damage uniform in 25–35 (not 25–45), base hit chance exactly 0.60 (not a
0.60–0.85 range), a weapon from the armored-scav pool extended with the SVD
and M4A1, and guaranteed Gen4 or Kirasa body armor and an Altyn or Kolpak-1
helmet. -/
theorem c8_elite_tier :
    ∀ rolls : EnemyRolls, rolls.tierRoll < 15/100 →
      150 ≤ (spawnEnemyFromRolls rolls).maxHealth ∧
      (spawnEnemyFromRolls rolls).maxHealth ≤ 250 ∧
      (spawnEnemyFromRolls rolls).currentHealth = (spawnEnemyFromRolls rolls).maxHealth ∧
      25 ≤ (spawnEnemyFromRolls rolls).damage ∧
      (spawnEnemyFromRolls rolls).damage ≤ 35 ∧
      (spawnEnemyFromRolls rolls).baseHitChance = 60/100 ∧
      (∃ w : Weapon, (spawnEnemyFromRolls rolls).equippedWeapon = some w ∧
        w ∈ armoredScavWeapons ++ [svd, m4a1]) ∧
      ((spawnEnemyFromRolls rolls).equippedArmor = some gen4Armor ∨
        (spawnEnemyFromRolls rolls).equippedArmor = some kirasaArmor) ∧
      ((spawnEnemyFromRolls rolls).equippedHelmet = some altynHelmet ∨
        (spawnEnemyFromRolls rolls).equippedHelmet = some kolpakHelmet) := by
  intro rolls ht
  have hh := randint_bounds 150 250 rolls.healthRoll (by norm_num)
  have hd := randint_bounds 25 35 rolls.damageRoll (by norm_num)
  have hw := uniformChoice_mem (armoredScavWeapons ++ [svd, m4a1]) pistol
    rolls.weaponRoll (by simp [armoredScavWeapons])
  have hA := uniformChoice_mem [gen4Armor, kirasaArmor] pacaArmor rolls.armorRoll
    (by simp)
  have hHm := uniformChoice_mem [altynHelmet, kolpakHelmet] beanie rolls.helmetRoll
    (by simp)
  simp only [spawnEnemyFromRolls, if_pos ht]
  refine ⟨hh.1, hh.2, by trivial, hd.1, hd.2, by trivial, ⟨_, rfl, hw⟩, ?_, ?_⟩
  · simp only [List.mem_cons, List.not_mem_nil, or_false] at hA
    rcases hA with h | h
    · exact Or.inl (by rw [h])
    · exact Or.inr (by rw [h])
  · simp only [List.mem_cons, List.not_mem_nil, or_false] at hHm
    rcases hHm with h | h
    · exact Or.inl (by rw [h])
    · exact Or.inr (by rw [h])

/-- Witness for C8 (amended) at the concrete elite draw record. -/
theorem c8_elite_tier_witness :
    150 ≤ (spawnEnemyFromRolls eliteRolls).maxHealth ∧
    (spawnEnemyFromRolls eliteRolls).maxHealth ≤ 250 ∧
    (spawnEnemyFromRolls eliteRolls).currentHealth = (spawnEnemyFromRolls eliteRolls).maxHealth ∧
    25 ≤ (spawnEnemyFromRolls eliteRolls).damage ∧
    (spawnEnemyFromRolls eliteRolls).damage ≤ 35 ∧
    (spawnEnemyFromRolls eliteRolls).baseHitChance = 60/100 ∧
    (∃ w : Weapon, (spawnEnemyFromRolls eliteRolls).equippedWeapon = some w ∧
      w ∈ armoredScavWeapons ++ [svd, m4a1]) ∧
    ((spawnEnemyFromRolls eliteRolls).equippedArmor = some gen4Armor ∨
      (spawnEnemyFromRolls eliteRolls).equippedArmor = some kirasaArmor) ∧
    ((spawnEnemyFromRolls eliteRolls).equippedHelmet = some altynHelmet ∨
      (spawnEnemyFromRolls eliteRolls).equippedHelmet = some kolpakHelmet) :=
  c8_elite_tier eliteRolls (by norm_num [eliteRolls])
